import Mathlib

/-!
Shallow embedding of `forge/ee/db/controllers/DeviceGroup.js`:
device-group membership reconciliation (diff computation, count-based
validation, transactional apply) plus the update-command notifier and the
device-group field update.

The database is modelled as the list of `Device` rows; Sequelize queries
become list operations.  A JS `undefined` optional argument is `none`.
A thrown JS error is an `Except.error`; the transaction inside
`updateDeviceGroupMembership` is modelled by returning the original device
table unchanged whenever the apply phase errors (rollback).
-/

/-- A device reference accepted by the API (`deviceListToIds`): a raw
numeric id, an encoded hashid string, or an object carrying an `id`. -/
inductive DeviceRef where
  | num (id : Nat)
  | hash (s : String)
  | record (id : Nat)
  deriving DecidableEq

/-- A row of the `Devices` table, restricted to the columns this
controller reads or writes. -/
structure Device where
  id : Nat
  deviceGroupId : Option Nat
  applicationId : Option Nat
  teamId : Option Nat
  targetSnapshotId : Option Nat
  settingsHash : Option String
  mode : Option String
  hashid : String
  deriving DecidableEq

/-- A project snapshot as used by the notifier. -/
structure Snapshot where
  id : Nat
  hashid : String
  deriving DecidableEq

/-- A `DeviceGroup` model instance with its loaded `Application`
association: `teamId` is `Application.TeamId`, and
`pipelineTargetSnapshotId` is `PipelineStageDeviceGroup.targetSnapshotId`. -/
structure DeviceGroup where
  id : Nat
  name : String
  description : String
  applicationId : Option Nat
  teamId : Option Nat
  targetSnapshot : Option Snapshot
  pipelineTargetSnapshotId : Option Nat
  deriving DecidableEq

/-- An `Application` row with its loaded `Team` (only the fields the
notifier reads). -/
structure Application where
  id : Nat
  hashid : String
  teamHashid : String
  deriving DecidableEq

/-- Errors thrown by the controller: `validation` is a
`DeviceGroupMembershipValidationError (code, message, statusCode)`;
`generic` is a plain `Error` with a message. -/
inductive CtrlError where
  | validation (code : String) (message : String) (statusCode : Nat)
  | generic (message : String)
  deriving DecidableEq

/-- `deviceListToIds`: convert a list of device references
(object | id | hash) to a list of numeric device ids. -/
def deviceListToIds (decoderFn : String → Nat) (deviceList : List DeviceRef) : List Nat :=
  deviceList.map fun device =>
    match device with
    | .num id => id
    | .hash s => decoderFn s
    | .record id => id

/-- `updateDeviceGroup`: fails when the group is missing, applies only the
fields explicitly provided (`none` models an absent argument), and reports
in the second component whether `save` + `reload` were performed. -/
def updateDeviceGroup (deviceGroup : Option DeviceGroup)
    (name description : Option String) : Except CtrlError (DeviceGroup × Bool) :=
  match deviceGroup with
  | none => .error (.generic "DeviceGroup is required")
  | some g =>
    let step1 :=
      match name with
      | some n => ({ g with name := n }, true)
      | none => (g, false)
    let step2 :=
      match description with
      | some d => ({ step1.1 with description := d }, true)
      | none => step1
    .ok step2

/-- The `where` predicate of the add-direction count query in
`validateDeviceList`: id listed, unassigned or already in this group, and
same application and team as the group. -/
def addEligible (deviceGroup : DeviceGroup) (teamId : Nat) (ids : List Nat)
    (d : Device) : Bool :=
  ids.contains d.id &&
    (d.deviceGroupId == none || d.deviceGroupId == some deviceGroup.id) &&
    d.applicationId == deviceGroup.applicationId &&
    d.teamId == some teamId

/-- The `where` predicate of the remove-direction count query in
`validateDeviceList`: id listed, currently in this group, and same
application and team as the group. -/
def removeEligible (deviceGroup : DeviceGroup) (teamId : Nat) (ids : List Nat)
    (d : Device) : Bool :=
  ids.contains d.id &&
    d.deviceGroupId == some deviceGroup.id &&
    d.applicationId == deviceGroup.applicationId &&
    d.teamId == some teamId

/-- The remove-direction count check of `validateDeviceList` (run after
the add-direction check). -/
def validateRemoveDirection (devices : List Device) (g : DeviceGroup) (teamId : Nat)
    (addIds removeIds : Option (List Nat)) :
    Except CtrlError (Option (List Nat) × Option (List Nat)) :=
  match removeIds with
  | some ids =>
    if (devices.filter (removeEligible g teamId ids)).length ≠ ids.length then
      .error (.validation "invalid_input" "One or more devices cannot be removed from the group" 400)
    else .ok (addIds, removeIds)
  | none => .ok (addIds, removeIds)

/-- `validateDeviceList`: checks the group is present and has a (truthy)
team, normalizes both optional lists, and runs one count query per
direction; a count mismatch raises the 400 `invalid_input` validation
error for that direction (the add direction is checked first). -/
def validateDeviceList (decoderFn : String → Nat) (devices : List Device)
    (deviceGroup : Option DeviceGroup)
    (addList removeList : Option (List DeviceRef)) :
    Except CtrlError (Option (List Nat) × Option (List Nat)) :=
  match deviceGroup with
  | none => .error (.generic "DeviceGroup is required")
  | some g =>
    match g.teamId with
    | none => .error (.generic "DeviceGroup must belong to an Application that belongs to a Team")
    | some teamId =>
      if teamId = 0 then
        .error (.generic "DeviceGroup must belong to an Application that belongs to a Team")
      else
        match addList.map (deviceListToIds decoderFn) with
        | some ids =>
          if (devices.filter (addEligible g teamId ids)).length ≠ ids.length then
            .error (.validation "invalid_input" "One or more devices cannot be added to the group" 400)
          else
            validateRemoveDirection devices g teamId (some ids)
              (removeList.map (deviceListToIds decoderFn))
        | none =>
          validateRemoveDirection devices g teamId none
            (removeList.map (deviceListToIds decoderFn))

/-- `assignDevicesToGroup`: validate, then bulk-update
`DeviceGroupId := deviceGroup.id` on the rows whose id is in the list. -/
def assignDevicesToGroup (decoderFn : String → Nat) (devices : List Device)
    (deviceGroup : DeviceGroup) (deviceList : List DeviceRef) :
    Except CtrlError (List Device) :=
  match validateDeviceList decoderFn devices (some deviceGroup) (some deviceList) none with
  | .error e => .error e
  | .ok deviceIds =>
    let addIds := deviceIds.1.getD []
    .ok (devices.map fun d =>
      if addIds.contains d.id then { d with deviceGroupId := some deviceGroup.id } else d)

/-- `removeDevicesFromGroup`: validate, then bulk-update
`DeviceGroupId := null` on the rows whose id is in the list and which are
currently in this group. -/
def removeDevicesFromGroup (decoderFn : String → Nat) (devices : List Device)
    (deviceGroup : DeviceGroup) (deviceList : List DeviceRef) :
    Except CtrlError (List Device) :=
  match validateDeviceList decoderFn devices (some deviceGroup) none (some deviceList) with
  | .error e => .error e
  | .ok deviceIds =>
    let removeIds := deviceIds.2.getD []
    .ok (devices.map fun d =>
      if removeIds.contains d.id && d.deviceGroupId == some deviceGroup.id then
        { d with deviceGroupId := none }
      else d)

/-- `deviceGroup.getDevices()` followed by `deviceListToIds`: the ids of
the rows currently pointing at this group. -/
def currentMemberIds (devices : List Device) (deviceGroup : DeviceGroup) : List Nat :=
  (devices.filter fun d => d.deviceGroupId == some deviceGroup.id).map Device.id

/-- The diff computation of `updateDeviceGroupMembership`: when a set list
is present it is authoritative, otherwise remove is intersected with the
current members and add is the listed devices not already present.
Returns `(actualAddDevices, actualRemoveDevices)`. -/
def computeDiff (currentMembers : List Nat)
    (setIds addIds removeIds : Option (List Nat)) : List Nat × List Nat :=
  match setIds with
  | some s =>
    (s.filter fun d => !currentMembers.contains d,
     currentMembers.filter fun d => !s.contains d)
  | none =>
    let actualRemoveDevices :=
      match removeIds with
      | some r => currentMembers.filter fun d => r.contains d
      | none => []
    let actualAddDevices :=
      match addIds with
      | some a => a.filter fun d => !currentMembers.contains d
      | none => []
    (actualAddDevices, actualRemoveDevices)

/-- The transaction body of `updateDeviceGroupMembership`: additions are
applied first, then removals, each guarded by its length check. -/
def applyMembershipChange (decoderFn : String → Nat) (devices : List Device)
    (deviceGroup : DeviceGroup) (actualAddDevices actualRemoveDevices : List Nat) :
    Except CtrlError (List Device) :=
  let step1 : Except CtrlError (List Device) :=
    if actualAddDevices.length > 0 then
      assignDevicesToGroup decoderFn devices deviceGroup (actualAddDevices.map DeviceRef.num)
    else
      .ok devices
  match step1 with
  | .error e => .error e
  | .ok devices1 =>
    if actualRemoveDevices.length > 0 then
      removeDevicesFromGroup decoderFn devices1 deviceGroup (actualRemoveDevices.map DeviceRef.num)
    else
      .ok devices1

/-- The catch block of `updateDeviceGroupMembership`: a
`DeviceGroupMembershipValidationError` is rethrown unchanged; any other
error becomes a generic error carrying the original message. -/
def wrapMembershipError : CtrlError → CtrlError
  | .validation code message statusCode => .validation code message statusCode
  | .generic message => .generic ("Failed to update device group membership: " ++ message)

/-- `updateDeviceGroupMembership`: early-returns when none of the three
optional lists is given, requires the group, computes the diff against the
current members, and runs the transactional apply, rolling the device
table back (result is the input table) when the apply phase errors. -/
def updateDeviceGroupMembership (decoderFn : String → Nat) (devices : List Device)
    (deviceGroup : Option DeviceGroup)
    (addDevices removeDevices setDevices : Option (List DeviceRef)) :
    List Device × Option CtrlError :=
  if setDevices.isNone && addDevices.isNone && removeDevices.isNone then
    (devices, none)
  else
    match deviceGroup with
    | none => (devices, some (.generic "DeviceGroup is required"))
    | some g =>
      let memberIds := currentMemberIds devices g
      let setIds := setDevices.map (deviceListToIds decoderFn)
      let addIds := addDevices.map (deviceListToIds decoderFn)
      let removeIds := removeDevices.map (deviceListToIds decoderFn)
      let diff := computeDiff memberIds setIds addIds removeIds
      match applyMembershipChange decoderFn devices g diff.1 diff.2 with
      | .ok devices1 => (devices1, none)
      | .error err => (devices, some (wrapMembershipError err))

/-- The payload of a dispatched `update` command. -/
structure CommandPayload where
  ownerType : String
  application : String
  snapshot : String
  settings : Option String
  mode : Option String
  licensed : Bool
  deriving DecidableEq

/-- One call to `app.comms.devices.sendCommand`. -/
structure SentCommand where
  teamHashid : String
  deviceHashid : String
  command : String
  payload : CommandPayload
  deriving DecidableEq

/-- JS `device.settingsHash || null`: the empty string is falsy. -/
def settingsOrNull : Option String → Option String
  | some s => if s = "" then none else some s
  | none => none

/-- `sendUpdateCommand`: no-op without comms; otherwise resolves the
application (with its team) and the target snapshot, then dispatches an
`update` command to every device of the group whose `targetSnapshotId`
matches the group's pipeline-stage target, skipping the others.  A failed
association lookup models the JS null-property access throwing. -/
def sendUpdateCommand (commsAvailable licenseActive : Bool)
    (applications : List Application) (snapshots : List Snapshot)
    (devices : List Device) (deviceGroup : DeviceGroup) :
    Except CtrlError (List SentCommand) :=
  if commsAvailable then
    match applications.find? fun a => some a.id == deviceGroup.applicationId with
    | none => .error (.generic "Cannot read properties of null")
    | some application =>
      let resolvedSnapshot : Except CtrlError Snapshot :=
        match deviceGroup.targetSnapshot with
        | some s => .ok s
        | none =>
          match snapshots.find? (fun s => some s.id == deviceGroup.pipelineTargetSnapshotId) with
          | some s => .ok s
          | none => .error (.generic "Cannot read properties of null")
      match resolvedSnapshot with
      | .error e => .error e
      | .ok targetSnapshot =>
        let groupDevices := devices.filter fun d => d.deviceGroupId == some deviceGroup.id
        .ok <| groupDevices.filterMap fun device =>
          if device.targetSnapshotId != deviceGroup.pipelineTargetSnapshotId then
            none
          else
            some {
              teamHashid := application.teamHashid
              deviceHashid := device.hashid
              command := "update"
              payload := {
                ownerType := "application"
                application := application.hashid
                snapshot := targetSnapshot.hashid
                settings := settingsOrNull device.settingsHash
                mode := device.mode
                licensed := licenseActive } }
  else
    .ok []

/-- The membership invariant of the data model: a device's group pointer,
when non-null, names a group with the same application and team. -/
def membershipInvariant (groups : List DeviceGroup) (devices : List Device) : Prop :=
  ∀ d ∈ devices, d.deviceGroupId = none ∨
    ∃ g ∈ groups, d.deviceGroupId = some g.id ∧
      g.applicationId = d.applicationId ∧ g.teamId = d.teamId

/-- There is a row with id `i` whose group pointer is `gid`. -/
def hasMember (devices : List Device) (gid : Nat) (i : Nat) : Prop :=
  ∃ d ∈ devices, d.id = i ∧ d.deviceGroupId = some gid

/-- There is a row with id `i`. -/
def hasId (devices : List Device) (i : Nat) : Prop :=
  ∃ d ∈ devices, d.id = i

/-- A fixed decoder for the concrete evaluations below. -/
def decodeHashidFixed : String → Nat := fun _ => 0

/-- A sample device row of application 1 / team 1. -/
def sampleDevice (i : Nat) (gid : Option Nat) : Device :=
  { id := i, deviceGroupId := gid, applicationId := some 1, teamId := some 1,
    targetSnapshotId := none, settingsHash := none, mode := none, hashid := "" }

/-- A sample device group of application 1 / team 1. -/
def sampleGroup : DeviceGroup :=
  { id := 10, name := "g", description := "", applicationId := some 1, teamId := some 1,
    targetSnapshot := none, pipelineTargetSnapshotId := none }

/-- The device group used in the notifier evaluations: its pipeline stage
targets snapshot 7. -/
def notifierGroup : DeviceGroup :=
  { id := 10, name := "g", description := "", applicationId := some 1, teamId := some 1,
    targetSnapshot := none, pipelineTargetSnapshotId := some 7 }

/-- The application (with team) used in the notifier evaluations. -/
def notifierApp : Application :=
  { id := 1, hashid := "app-hash", teamHashid := "team-hash" }

/-- The pipeline target snapshot used in the notifier evaluations. -/
def notifierSnap : Snapshot :=
  { id := 7, hashid := "snap-hash" }

/-- A group member targeting snapshot 7 (the group's target). -/
def notifierDeviceMatching : Device :=
  { id := 1, deviceGroupId := some 10, applicationId := some 1, teamId := some 1,
    targetSnapshotId := some 7, settingsHash := some "abc", mode := some "autonomous",
    hashid := "dev1" }

/-- A group member targeting snapshot 8 (not the group's target). -/
def notifierDeviceOther : Device :=
  { id := 2, deviceGroupId := some 10, applicationId := some 1, teamId := some 1,
    targetSnapshotId := some 8, settingsHash := none, mode := some "fleet",
    hashid := "dev2" }

/-- The command expected for the matching device. -/
def notifierExpectedCommand : SentCommand :=
  { teamHashid := "team-hash", deviceHashid := "dev1", command := "update",
    payload := { ownerType := "application", application := "app-hash",
                 snapshot := "snap-hash", settings := some "abc",
                 mode := some "autonomous", licensed := true } }

/-! ## General lemmas about the count-based validation queries -/

theorem deviceListToIds_map_num (decoderFn : String → Nat) (l : List Nat) :
    deviceListToIds decoderFn (l.map DeviceRef.num) = l := by
  induction l with
  | nil => rfl
  | cons a l ih =>
    simp only [deviceListToIds, List.map_cons] at ih ⊢
    rw [ih]

/-- Core counting argument: when the device table has pairwise-distinct
ids, the predicate `q` only holds for listed rows, and the number of rows
satisfying `q` equals `ids.length`, then every listed row satisfies `q`,
the listed ids are pairwise distinct, and every listed id is realized by
a row satisfying `q`. -/
theorem count_ok_spec (devices : List Device) (ids : List Nat) (q : Device → Bool)
    (hq : ∀ d, q d = true → d.id ∈ ids)
    (hN : (devices.map Device.id).Nodup)
    (h : (devices.filter q).length = ids.length) :
    (∀ d ∈ devices, d.id ∈ ids → q d = true) ∧ ids.Nodup ∧
      ∀ i ∈ ids, ∃ d ∈ devices, d.id = i ∧ q d = true := by
  classical
  set A := devices.filter fun d => ids.contains d.id with hAdef
  have hF : devices.filter q = A.filter q := by
    rw [hAdef, List.filter_filter]
    refine List.filter_congr fun d _ => ?_
    cases hqd : q d with
    | false => simp
    | true => simp [hq d hqd]
  have hAids : (A.map Device.id).Nodup :=
    hN.sublist ((List.filter_sublist devices).map Device.id)
  have hsubmem : A.map Device.id ⊆ ids.dedup := by
    intro i hi
    rcases List.mem_map.1 hi with ⟨d, hdA, rfl⟩
    have hc := (List.mem_filter.1 (by rw [hAdef] at hdA; exact hdA)).2
    exact List.mem_dedup.2 (by simpa using hc)
  have hlen1 : (A.map Device.id).length ≤ ids.dedup.length :=
    (hAids.subperm hsubmem).length_le
  have hlen2 : ids.dedup.length ≤ ids.length := (List.dedup_sublist ids).length_le
  have hFlen : (A.filter q).length = ids.length := by rw [← hF]; exact h
  have hle : (A.filter q).length ≤ A.length := List.length_filter_le _ _
  have hAlen : (A.map Device.id).length = A.length := List.length_map _ _
  have hfilterA : A.filter q = A := (List.filter_sublist A).eq_of_length (by omega)
  have hallA : ∀ d ∈ A, q d = true := List.filter_eq_self.1 hfilterA
  have hdedup : ids.dedup = ids := (List.dedup_sublist ids).eq_of_length (by omega)
  have hidsN : ids.Nodup := hdedup ▸ ids.nodup_dedup
  have hperm : (A.map Device.id).Perm ids.dedup :=
    (hAids.subperm hsubmem).perm_of_length_le (by omega)
  refine ⟨?_, hidsN, ?_⟩
  · intro d hd hid
    refine hallA d ?_
    rw [hAdef]
    exact List.mem_filter.2 ⟨hd, by simpa using hid⟩
  · intro i hi
    have hidedup : i ∈ ids.dedup := by rw [hdedup]; exact hi
    have : i ∈ A.map Device.id := hperm.mem_iff.2 hidedup
    rcases List.mem_map.1 this with ⟨d, hdA, rfl⟩
    refine ⟨d, ?_, rfl, hallA d hdA⟩
    exact (List.filter_sublist devices).subset (by rw [hAdef] at hdA; exact hdA)

/-- Converse counting argument: over a table with pairwise-distinct ids,
a duplicate-free id list each of whose ids is realized by a row
satisfying `q` makes the count query match the list length. -/
theorem count_ok_of_all (devices : List Device) (ids : List Nat) (q : Device → Bool)
    (hq : ∀ d, q d = true → d.id ∈ ids)
    (hN : (devices.map Device.id).Nodup) (hids : ids.Nodup)
    (hall : ∀ i ∈ ids, ∃ d ∈ devices, d.id = i ∧ q d = true) :
    (devices.filter q).length = ids.length := by
  classical
  set F := devices.filter q with hFdef
  have hFids : (F.map Device.id).Nodup :=
    hN.sublist ((List.filter_sublist devices).map Device.id)
  have hsub1 : F.map Device.id ⊆ ids := by
    intro i hi
    rcases List.mem_map.1 hi with ⟨d, hdF, rfl⟩
    have hc := (List.mem_filter.1 (by rw [hFdef] at hdF; exact hdF)).2
    exact hq d hc
  have hsub2 : ids ⊆ F.map Device.id := by
    intro i hi
    rcases hall i hi with ⟨d, hd, rfl, hp⟩
    have hdF : d ∈ F := by
      rw [hFdef]
      exact List.mem_filter.2 ⟨hd, hp⟩
    exact List.mem_map_of_mem Device.id hdF
  have h1 : (F.map Device.id).length ≤ ids.length := (hFids.subperm hsub1).length_le
  have h2 : ids.length ≤ (F.map Device.id).length := (hids.subperm hsub2).length_le
  have h3 : (F.map Device.id).length = F.length := List.length_map _ _
  omega

theorem validateRemoveDirection_ok_elim (devices : List Device) (g : DeviceGroup)
    (teamId : Nat) (addIds removeIds : Option (List Nat))
    (out : Option (List Nat) × Option (List Nat))
    (h : validateRemoveDirection devices g teamId addIds removeIds = .ok out) :
    out = (addIds, removeIds) ∧
      ∀ ids, removeIds = some ids →
        (devices.filter (removeEligible g teamId ids)).length = ids.length := by
  rcases removeIds with _ | ids
  · unfold validateRemoveDirection at h
    injection h with h2
    exact ⟨h2.symm, by simp⟩
  · unfold validateRemoveDirection at h
    dsimp only at h
    by_cases hc : (devices.filter (removeEligible g teamId ids)).length = ids.length
    · rw [if_neg (fun hne => hne hc)] at h
      injection h with h2
      exact ⟨h2.symm, fun ids' h' => by cases h'; exact hc⟩
    · rw [if_pos hc] at h
      exact Except.noConfusion h

theorem validateRemoveDirection_ok_intro (devices : List Device) (g : DeviceGroup)
    (teamId : Nat) (addIds removeIds : Option (List Nat))
    (hR : ∀ ids, removeIds = some ids →
      (devices.filter (removeEligible g teamId ids)).length = ids.length) :
    validateRemoveDirection devices g teamId addIds removeIds = .ok (addIds, removeIds) := by
  rcases removeIds with _ | ids
  · rfl
  · unfold validateRemoveDirection
    dsimp only
    rw [if_neg (fun hne => hne (hR ids rfl))]

/-- Successful validation forces a truthy team id, returns the normalized
lists, and means both count queries matched their list lengths. -/
theorem validateDeviceList_ok_elim (decoderFn : String → Nat) (devices : List Device)
    (g : DeviceGroup) (addList removeList : Option (List DeviceRef))
    (out : Option (List Nat) × Option (List Nat))
    (h : validateDeviceList decoderFn devices (some g) addList removeList = .ok out) :
    ∃ tid, tid ≠ 0 ∧ g.teamId = some tid ∧
      out = (addList.map (deviceListToIds decoderFn),
             removeList.map (deviceListToIds decoderFn)) ∧
      (∀ ids, addList.map (deviceListToIds decoderFn) = some ids →
        (devices.filter (addEligible g tid ids)).length = ids.length) ∧
      (∀ ids, removeList.map (deviceListToIds decoderFn) = some ids →
        (devices.filter (removeEligible g tid ids)).length = ids.length) := by
  unfold validateDeviceList at h
  dsimp only at h
  rcases hgt : g.teamId with _ | tid
  · rw [hgt] at h
    exact Except.noConfusion h
  rw [hgt] at h
  dsimp only at h
  by_cases hz : tid = 0
  · rw [if_pos hz] at h
    exact Except.noConfusion h
  rw [if_neg hz] at h
  rcases addList with _ | aL
  · dsimp only [Option.map] at h
    obtain ⟨hout, hR⟩ := validateRemoveDirection_ok_elim _ _ _ _ _ _ h
    exact ⟨tid, hz, rfl, by simpa using hout, by simp, hR⟩
  · dsimp only [Option.map] at h
    by_cases hc : (devices.filter (addEligible g tid (deviceListToIds decoderFn aL))).length
        = (deviceListToIds decoderFn aL).length
    · rw [if_neg (fun hne => hne hc)] at h
      obtain ⟨hout, hR⟩ := validateRemoveDirection_ok_elim _ _ _ _ _ _ h
      refine ⟨tid, hz, rfl, by simpa using hout, ?_, hR⟩
      intro ids hids
      simp only [Option.map, Option.some.injEq] at hids
      cases hids
      exact hc
    · rw [if_pos hc] at h
      exact Except.noConfusion h

theorem validateDeviceList_ok_intro (decoderFn : String → Nat) (devices : List Device)
    (g : DeviceGroup) (addList removeList : Option (List DeviceRef)) (tid : Nat)
    (hgt : g.teamId = some tid) (hz : tid ≠ 0)
    (hA : ∀ ids, addList.map (deviceListToIds decoderFn) = some ids →
      (devices.filter (addEligible g tid ids)).length = ids.length)
    (hR : ∀ ids, removeList.map (deviceListToIds decoderFn) = some ids →
      (devices.filter (removeEligible g tid ids)).length = ids.length) :
    validateDeviceList decoderFn devices (some g) addList removeList =
      .ok (addList.map (deviceListToIds decoderFn),
           removeList.map (deviceListToIds decoderFn)) := by
  unfold validateDeviceList
  dsimp only
  rw [hgt]
  dsimp only
  rw [if_neg hz]
  rcases addList with _ | aL
  · dsimp only [Option.map]
    exact validateRemoveDirection_ok_intro _ _ _ _ _ hR
  · dsimp only [Option.map]
    rw [if_neg (fun hne => hne (hA _ rfl))]
    exact validateRemoveDirection_ok_intro _ _ _ _ _ hR

/-- A failed add-direction count makes `validateDeviceList` raise the 400
`invalid_input` validation error (before the remove direction is looked
at). -/
theorem validateDeviceList_add_error_intro (decoderFn : String → Nat)
    (devices : List Device) (g : DeviceGroup) (aL : List DeviceRef)
    (removeList : Option (List DeviceRef)) (tid : Nat)
    (hgt : g.teamId = some tid) (hz : tid ≠ 0)
    (hc : (devices.filter (addEligible g tid (deviceListToIds decoderFn aL))).length ≠
        (deviceListToIds decoderFn aL).length) :
    validateDeviceList decoderFn devices (some g) (some aL) removeList =
      .error (.validation "invalid_input" "One or more devices cannot be added to the group" 400) := by
  unfold validateDeviceList
  dsimp only
  rw [hgt]
  dsimp only
  rw [if_neg hz]
  dsimp only [Option.map]
  rw [if_pos hc]

/-- A successful `assignDevicesToGroup` means the add-direction count
matched, and the new table is the bulk update of the group pointer on the
listed rows. -/
theorem assignDevicesToGroup_ok_elim (decoderFn : String → Nat) (devices : List Device)
    (g : DeviceGroup) (deviceList : List DeviceRef) (devices' : List Device)
    (h : assignDevicesToGroup decoderFn devices g deviceList = .ok devices') :
    ∃ tid, tid ≠ 0 ∧ g.teamId = some tid ∧
      (devices.filter (addEligible g tid (deviceListToIds decoderFn deviceList))).length
        = (deviceListToIds decoderFn deviceList).length ∧
      devices' = devices.map fun d =>
        if (deviceListToIds decoderFn deviceList).contains d.id then
          { d with deviceGroupId := some g.id }
        else d := by
  unfold assignDevicesToGroup at h
  cases hv : validateDeviceList decoderFn devices (some g) (some deviceList) none with
  | error e => rw [hv] at h; exact Except.noConfusion h
  | ok out =>
    rw [hv] at h
    dsimp only at h
    obtain ⟨tid, hz, hgt, hout, hA, _⟩ := validateDeviceList_ok_elim _ _ _ _ _ _ hv
    subst hout
    injection h with h2
    refine ⟨tid, hz, hgt, hA _ rfl, ?_⟩
    rw [← h2]
    rfl

/-- A successful `removeDevicesFromGroup` means the remove-direction
count matched, and the new table nulls the group pointer on the listed
rows currently in the group. -/
theorem removeDevicesFromGroup_ok_elim (decoderFn : String → Nat) (devices : List Device)
    (g : DeviceGroup) (deviceList : List DeviceRef) (devices' : List Device)
    (h : removeDevicesFromGroup decoderFn devices g deviceList = .ok devices') :
    ∃ tid, tid ≠ 0 ∧ g.teamId = some tid ∧
      (devices.filter (removeEligible g tid (deviceListToIds decoderFn deviceList))).length
        = (deviceListToIds decoderFn deviceList).length ∧
      devices' = devices.map fun d =>
        if (deviceListToIds decoderFn deviceList).contains d.id
            && d.deviceGroupId == some g.id then
          { d with deviceGroupId := none }
        else d := by
  unfold removeDevicesFromGroup at h
  cases hv : validateDeviceList decoderFn devices (some g) none (some deviceList) with
  | error e => rw [hv] at h; exact Except.noConfusion h
  | ok out =>
    rw [hv] at h
    dsimp only at h
    obtain ⟨tid, hz, hgt, hout, _, hR⟩ := validateDeviceList_ok_elim _ _ _ _ _ _ hv
    subst hout
    injection h with h2
    refine ⟨tid, hz, hgt, hR _ rfl, ?_⟩
    rw [← h2]
    rfl

/-- Decomposition of a successful transactional apply into its (guarded)
add step followed by its (guarded) remove step. -/
theorem applyMembershipChange_ok_elim (decoderFn : String → Nat) (devices : List Device)
    (g : DeviceGroup) (toAdd toRemove : List Nat) (devices' : List Device)
    (h : applyMembershipChange decoderFn devices g toAdd toRemove = .ok devices') :
    ∃ devices1,
      (toAdd = [] ∧ devices1 = devices ∨
        assignDevicesToGroup decoderFn devices g (toAdd.map DeviceRef.num) = .ok devices1) ∧
      (toRemove = [] ∧ devices' = devices1 ∨
        removeDevicesFromGroup decoderFn devices1 g (toRemove.map DeviceRef.num)
          = .ok devices') := by
  unfold applyMembershipChange at h
  dsimp only at h
  rcases toAdd with _ | ⟨a, as⟩
  · rw [if_neg (by simp)] at h
    dsimp only at h
    refine ⟨devices, Or.inl ⟨rfl, rfl⟩, ?_⟩
    rcases toRemove with _ | ⟨r, rs⟩
    · rw [if_neg (by simp)] at h
      injection h with h2
      exact Or.inl ⟨rfl, h2.symm⟩
    · rw [if_pos (by simp)] at h
      exact Or.inr h
  · rw [if_pos (by simp)] at h
    cases ha : assignDevicesToGroup decoderFn devices g ((a :: as).map DeviceRef.num) with
    | error e => rw [ha] at h; exact Except.noConfusion h
    | ok devices1 =>
      rw [ha] at h
      dsimp only at h
      refine ⟨devices1, Or.inr rfl, ?_⟩
      rcases toRemove with _ | ⟨r, rs⟩
      · rw [if_neg (by simp)] at h
        injection h with h2
        exact Or.inl ⟨rfl, h2.symm⟩
      · rw [if_pos (by simp)] at h
        exact Or.inr h

theorem mem_currentMemberIds (devices : List Device) (g : DeviceGroup) (i : Nat) :
    i ∈ currentMemberIds devices g ↔ hasMember devices g.id i := by
  simp only [currentMemberIds, hasMember, List.mem_map, List.mem_filter, beq_iff_eq]
  constructor
  · rintro ⟨d, ⟨hd, hgid⟩, rfl⟩
    exact ⟨d, hd, rfl, hgid⟩
  · rintro ⟨d, hd, rfl, hgid⟩
    exact ⟨d, ⟨hd, hgid⟩, rfl⟩

/-- Group membership after the bulk add update. -/
theorem hasMember_after_assign (devices : List Device) (addIds : List Nat)
    (gid : Nat) (i : Nat) :
    hasMember (devices.map fun d =>
        if addIds.contains d.id then { d with deviceGroupId := some gid } else d) gid i ↔
      (hasId devices i ∧ i ∈ addIds) ∨ hasMember devices gid i := by
  simp only [hasMember, hasId, List.mem_map]
  constructor
  · rintro ⟨d', ⟨d, hd, rfl⟩, hid, hgid⟩
    by_cases hc : addIds.contains d.id = true
    · rw [if_pos hc] at hid hgid
      simp only at hid hgid
      exact Or.inl ⟨⟨d, hd, hid⟩, by rw [← hid]; simpa using hc⟩
    · rw [if_neg hc] at hid hgid
      exact Or.inr ⟨d, hd, hid, hgid⟩
  · rintro (⟨⟨d, hd, rfl⟩, hin⟩ | ⟨d, hd, rfl, hgid⟩)
    · refine ⟨{ d with deviceGroupId := some gid }, ⟨d, hd, ?_⟩, rfl, rfl⟩
      rw [if_pos (by simpa using hin)]
    · by_cases hc : addIds.contains d.id = true
      · refine ⟨{ d with deviceGroupId := some gid }, ⟨d, hd, ?_⟩, rfl, rfl⟩
        rw [if_pos hc]
      · refine ⟨d, ⟨d, hd, ?_⟩, rfl, hgid⟩
        rw [if_neg hc]

/-- Group membership after the bulk remove update. -/
theorem hasMember_after_remove (devices : List Device) (removeIds : List Nat)
    (gid : Nat) (i : Nat) :
    hasMember (devices.map fun d =>
        if removeIds.contains d.id && d.deviceGroupId == some gid then
          { d with deviceGroupId := none }
        else d) gid i ↔
      hasMember devices gid i ∧ i ∉ removeIds := by
  simp only [hasMember, List.mem_map]
  constructor
  · rintro ⟨d', ⟨d, hd, rfl⟩, hid, hgid⟩
    by_cases hc : (removeIds.contains d.id && (d.deviceGroupId == some gid)) = true
    · rw [if_pos hc] at hgid
      exact absurd hgid (by simp)
    · rw [if_neg hc] at hid hgid
      simp only [Bool.and_eq_true, beq_iff_eq, not_and] at hc
      refine ⟨⟨d, hd, hid, hgid⟩, ?_⟩
      intro hmem
      exact hc (by rw [hid]; simpa using hmem) hgid
  · rintro ⟨⟨d, hd, rfl, hgid⟩, hnot⟩
    refine ⟨d, ⟨d, hd, ?_⟩, rfl, hgid⟩
    rw [if_neg]
    simp only [Bool.and_eq_true, beq_iff_eq, not_and]
    intro hcont
    exact absurd (by simpa using hcont) hnot

theorem addEligible_spec {g : DeviceGroup} {tid : Nat} {ids : List Nat} {d : Device}
    (h : addEligible g tid ids d = true) :
    d.id ∈ ids ∧ (d.deviceGroupId = none ∨ d.deviceGroupId = some g.id) ∧
      d.applicationId = g.applicationId ∧ d.teamId = some tid := by
  simp only [addEligible, Bool.and_eq_true, Bool.or_eq_true, beq_iff_eq] at h
  obtain ⟨⟨⟨hc, hg⟩, ha⟩, ht⟩ := h
  exact ⟨by simpa using hc, hg, ha, ht⟩

theorem addEligible_intro {g : DeviceGroup} {tid : Nat} {ids : List Nat} {d : Device}
    (hc : d.id ∈ ids)
    (hg : d.deviceGroupId = none ∨ d.deviceGroupId = some g.id)
    (ha : d.applicationId = g.applicationId) (ht : d.teamId = some tid) :
    addEligible g tid ids d = true := by
  simp only [addEligible, Bool.and_eq_true, Bool.or_eq_true, beq_iff_eq]
  exact ⟨⟨⟨by simpa using hc, hg⟩, ha⟩, ht⟩

theorem removeEligible_spec {g : DeviceGroup} {tid : Nat} {ids : List Nat} {d : Device}
    (h : removeEligible g tid ids d = true) :
    d.id ∈ ids ∧ d.deviceGroupId = some g.id ∧
      d.applicationId = g.applicationId ∧ d.teamId = some tid := by
  simp only [removeEligible, Bool.and_eq_true, beq_iff_eq] at h
  obtain ⟨⟨⟨hc, hg⟩, ha⟩, ht⟩ := h
  exact ⟨by simpa using hc, hg, ha, ht⟩

/-- Set-mode reconciliation: on success (over a table with unique ids)
the resulting group membership is exactly the normalized set list. -/
theorem applyMembershipChange_set_membership (decoderFn : String → Nat)
    (devices : List Device) (g : DeviceGroup) (S' : List Nat) (devices' : List Device)
    (hN : (devices.map Device.id).Nodup)
    (h : applyMembershipChange decoderFn devices g
        (S'.filter fun i => !(currentMemberIds devices g).contains i)
        ((currentMemberIds devices g).filter fun i => !S'.contains i) = .ok devices') :
    ∀ i, hasMember devices' g.id i ↔ i ∈ S' := by
  obtain ⟨devices1, hstep1, hstep2⟩ := applyMembershipChange_ok_elim _ _ _ _ _ _ h
  have htoAdd : ∀ i, i ∈ (S'.filter fun i => !(currentMemberIds devices g).contains i) ↔
      i ∈ S' ∧ i ∉ currentMemberIds devices g := by
    intro i; simp [List.mem_filter]
  have htoRem : ∀ i, i ∈ ((currentMemberIds devices g).filter fun i => !S'.contains i) ↔
      i ∈ currentMemberIds devices g ∧ i ∉ S' := by
    intro i; simp [List.mem_filter]
  have hm1 : ∀ i, hasMember devices1 g.id i ↔
      (hasId devices i ∧ i ∈ (S'.filter fun i => !(currentMemberIds devices g).contains i))
        ∨ hasMember devices g.id i := by
    rcases hstep1 with ⟨hAe, rfl⟩ | hassign
    · intro i
      rw [hAe]
      simp
    · obtain ⟨tid, hz, hgt, hcount, hform⟩ := assignDevicesToGroup_ok_elim _ _ _ _ _ hassign
      intro i
      rw [hform, deviceListToIds_map_num]
      exact hasMember_after_assign _ _ _ _
  have hid1 : ∀ i ∈ (S'.filter fun i => !(currentMemberIds devices g).contains i),
      hasId devices i := by
    rcases hstep1 with ⟨hAe, _⟩ | hassign
    · intro i hi
      rw [hAe] at hi
      cases hi
    · obtain ⟨tid, hz, hgt, hcount, _⟩ := assignDevicesToGroup_ok_elim _ _ _ _ _ hassign
      rw [deviceListToIds_map_num] at hcount
      intro i hi
      obtain ⟨-, -, hreal⟩ := count_ok_spec devices _ _
        (fun d hd => (addEligible_spec hd).1) hN hcount
      obtain ⟨d, hd, rfl, -⟩ := hreal i hi
      exact ⟨d, hd, rfl⟩
  have hm2 : ∀ i, hasMember devices' g.id i ↔
      hasMember devices1 g.id i ∧
        i ∉ ((currentMemberIds devices g).filter fun i => !S'.contains i) := by
    rcases hstep2 with ⟨hRe, rfl⟩ | hremove
    · intro i
      rw [hRe]
      simp
    · obtain ⟨tid, hz, hgt, hcount, hform⟩ := removeDevicesFromGroup_ok_elim _ _ _ _ _ hremove
      intro i
      rw [hform, deviceListToIds_map_num]
      exact hasMember_after_remove _ _ _ _
  intro i
  rw [hm2 i, hm1 i]
  constructor
  · rintro ⟨⟨hid, hia⟩ | hmem, hnr⟩
    · exact ((htoAdd i).1 hia).1
    · by_contra hS
      exact hnr ((htoRem i).2 ⟨(mem_currentMemberIds devices g i).2 hmem, hS⟩)
  · intro hS
    by_cases hCm : i ∈ currentMemberIds devices g
    · refine ⟨Or.inr ((mem_currentMemberIds devices g i).1 hCm), ?_⟩
      intro hr
      exact ((htoRem i).1 hr).2 hS
    · have hia : i ∈ (S'.filter fun i => !(currentMemberIds devices g).contains i) :=
        (htoAdd i).2 ⟨hS, hCm⟩
      refine ⟨Or.inl ⟨hid1 i hia, hia⟩, ?_⟩
      intro hr
      exact hCm ((htoRem i).1 hr).1

theorem applyMembershipChange_nil (decoderFn : String → Nat) (devices : List Device)
    (g : DeviceGroup) :
    applyMembershipChange decoderFn devices g [] [] = .ok devices := rfl

/-- As soon as one of the three optional lists is present, the call runs
the diff and the transactional apply. -/
theorem updateDeviceGroupMembership_eq_of_not_all_none (decoderFn : String → Nat)
    (devices : List Device) (g : DeviceGroup)
    (a r s : Option (List DeviceRef))
    (hne : s ≠ none ∨ a ≠ none ∨ r ≠ none) :
    updateDeviceGroupMembership decoderFn devices (some g) a r s =
      match applyMembershipChange decoderFn devices g
          (computeDiff (currentMemberIds devices g) (s.map (deviceListToIds decoderFn))
            (a.map (deviceListToIds decoderFn)) (r.map (deviceListToIds decoderFn))).1
          (computeDiff (currentMemberIds devices g) (s.map (deviceListToIds decoderFn))
            (a.map (deviceListToIds decoderFn)) (r.map (deviceListToIds decoderFn))).2 with
        | .ok devices1 => (devices1, none)
        | .error err => (devices, some (wrapMembershipError err)) := by
  rcases s with _ | S <;> rcases a with _ | A <;> rcases r with _ | R <;>
    first
      | (exfalso; rcases hne with h | h | h <;> exact h rfl)
      | rfl

/-- A successful membership update either did not run the apply phase at
all (no arguments) or ran it successfully on the computed diff. -/
theorem updateDeviceGroupMembership_ok_elim (decoderFn : String → Nat)
    (devices : List Device) (g : DeviceGroup)
    (a r s : Option (List DeviceRef)) (devices' : List Device)
    (h : updateDeviceGroupMembership decoderFn devices (some g) a r s = (devices', none)) :
    devices' = devices ∨
      applyMembershipChange decoderFn devices g
        (computeDiff (currentMemberIds devices g) (s.map (deviceListToIds decoderFn))
          (a.map (deviceListToIds decoderFn)) (r.map (deviceListToIds decoderFn))).1
        (computeDiff (currentMemberIds devices g) (s.map (deviceListToIds decoderFn))
          (a.map (deviceListToIds decoderFn)) (r.map (deviceListToIds decoderFn))).2
        = .ok devices' := by
  by_cases hall : s = none ∧ a = none ∧ r = none
  · obtain ⟨rfl, rfl, rfl⟩ := hall
    left
    have h' : (devices, (none : Option CtrlError)) = (devices', none) := h
    injection h' with h1 _
    exact h1.symm
  · rw [updateDeviceGroupMembership_eq_of_not_all_none _ _ _ _ _ _ (by tauto)] at h
    right
    cases happ : applyMembershipChange decoderFn devices g
        (computeDiff (currentMemberIds devices g) (s.map (deviceListToIds decoderFn))
          (a.map (deviceListToIds decoderFn)) (r.map (deviceListToIds decoderFn))).1
        (computeDiff (currentMemberIds devices g) (s.map (deviceListToIds decoderFn))
          (a.map (deviceListToIds decoderFn)) (r.map (deviceListToIds decoderFn))).2 with
    | ok d1 =>
      rw [happ] at h
      injection h with h1 _
      rw [h1]
    | error e =>
      rw [happ] at h
      injection h with _ h2
      exact Option.noConfusion h2

/-- A successful set-mode update ran the apply phase successfully on the
set diff. -/
theorem updateDeviceGroupMembership_set_apply (decoderFn : String → Nat)
    (devices : List Device) (g : DeviceGroup) (a r : Option (List DeviceRef))
    (S : List DeviceRef) (devices' : List Device)
    (h : updateDeviceGroupMembership decoderFn devices (some g) a r (some S)
      = (devices', none)) :
    applyMembershipChange decoderFn devices g
      ((deviceListToIds decoderFn S).filter
        fun i => !(currentMemberIds devices g).contains i)
      ((currentMemberIds devices g).filter
        fun i => !(deviceListToIds decoderFn S).contains i)
      = .ok devices' := by
  rw [updateDeviceGroupMembership_eq_of_not_all_none _ _ _ _ _ _ (Or.inl (by simp))] at h
  simp only [Option.map, computeDiff] at h
  cases happ : applyMembershipChange decoderFn devices g
      ((deviceListToIds decoderFn S).filter
        fun i => !(currentMemberIds devices g).contains i)
      ((currentMemberIds devices g).filter
        fun i => !(deviceListToIds decoderFn S).contains i) with
  | ok d1 =>
    rw [happ] at h
    injection h with h1 _
    rw [h1]
  | error e =>
    rw [happ] at h
    injection h with _ h2
    exact Option.noConfusion h2

/-- The assign step keeps the membership invariant: validation guarantees
every written row matches the group's application and team. -/
theorem membershipInvariant_after_assign (decoderFn : String → Nat)
    (devices devices' : List Device) (groups : List DeviceGroup) (g : DeviceGroup)
    (dl : List DeviceRef)
    (hInv : membershipInvariant groups devices) (hg : g ∈ groups)
    (hN : (devices.map Device.id).Nodup)
    (h : assignDevicesToGroup decoderFn devices g dl = .ok devices') :
    membershipInvariant groups devices' := by
  obtain ⟨tid, hz, hgt, hcount, hform⟩ := assignDevicesToGroup_ok_elim _ _ _ _ _ h
  obtain ⟨hall, -, -⟩ := count_ok_spec devices (deviceListToIds decoderFn dl) _
    (fun d hd => (addEligible_spec hd).1) hN hcount
  subst hform
  intro d' hd'
  rcases List.mem_map.1 hd' with ⟨d, hd, rfl⟩
  by_cases hc : (deviceListToIds decoderFn dl).contains d.id = true
  · rw [if_pos hc]
    right
    have helig := hall d hd (by simpa using hc)
    obtain ⟨-, -, ha, ht⟩ := addEligible_spec helig
    exact ⟨g, hg, rfl, ha.symm, by rw [hgt, ht]⟩
  · rw [if_neg hc]
    exact hInv d hd

/-- The remove step keeps the membership invariant: it only nulls group
pointers. -/
theorem membershipInvariant_after_remove (decoderFn : String → Nat)
    (devices devices' : List Device) (groups : List DeviceGroup) (g : DeviceGroup)
    (dl : List DeviceRef)
    (hInv : membershipInvariant groups devices)
    (h : removeDevicesFromGroup decoderFn devices g dl = .ok devices') :
    membershipInvariant groups devices' := by
  obtain ⟨tid, hz, hgt, hcount, hform⟩ := removeDevicesFromGroup_ok_elim _ _ _ _ _ h
  subst hform
  intro d' hd'
  rcases List.mem_map.1 hd' with ⟨d, hd, rfl⟩
  by_cases hc : ((deviceListToIds decoderFn dl).contains d.id
      && (d.deviceGroupId == some g.id)) = true
  · rw [if_pos hc]
    left
    rfl
  · rw [if_neg hc]
    exact hInv d hd

/-- The whole apply phase keeps the membership invariant. -/
theorem membershipInvariant_after_apply (decoderFn : String → Nat)
    (devices devices' : List Device) (groups : List DeviceGroup) (g : DeviceGroup)
    (toAdd toRemove : List Nat)
    (hInv : membershipInvariant groups devices) (hg : g ∈ groups)
    (hN : (devices.map Device.id).Nodup)
    (h : applyMembershipChange decoderFn devices g toAdd toRemove = .ok devices') :
    membershipInvariant groups devices' := by
  obtain ⟨devices1, hstep1, hstep2⟩ := applyMembershipChange_ok_elim _ _ _ _ _ _ h
  have hInv1 : membershipInvariant groups devices1 := by
    rcases hstep1 with ⟨-, rfl⟩ | hassign
    · exact hInv
    · exact membershipInvariant_after_assign _ _ _ _ _ _ hInv hg hN hassign
  rcases hstep2 with ⟨-, rfl⟩ | hremove
  · exact hInv1
  · exact membershipInvariant_after_remove _ _ _ _ _ _ hInv1 hremove

/-! ## Claim theorems -/

/-- C10: when none of `addDevices`, `removeDevices`, `setDevices` is
provided, `updateDeviceGroupMembership` returns immediately with the
device table untouched and no error, even when the group argument is
missing — the group precondition is never reached. -/
theorem updateMembership_noop_without_args (decoderFn : String → Nat)
    (devices : List Device) (deviceGroup : Option DeviceGroup) :
    updateDeviceGroupMembership decoderFn devices deviceGroup none none none
      = (devices, none) := rfl

/-- C9: `updateDeviceGroup` fails when the group is missing; otherwise it
changes exactly the fields explicitly provided, leaves every other field
unchanged, and saves + reloads (second component `true`) precisely when
at least one field was provided. -/
theorem updateDeviceGroup_partial_update (g : DeviceGroup)
    (name description : Option String) :
    updateDeviceGroup none name description
        = .error (.generic "DeviceGroup is required") ∧
    updateDeviceGroup (some g) name description =
      .ok ({ g with name := name.getD g.name,
                    description := description.getD g.description },
           name.isSome || description.isSome) := by
  refine ⟨rfl, ?_⟩
  rcases name with _ | n <;> rcases description with _ | d <;> rfl

/-- C4: for non-set requests the computed diff is minimal —
`toRemove` is the intersection of the current members with the normalized
remove list, and `toAdd` is the normalized add list minus the current
members; an absent direction contributes the empty list. -/
theorem computeDiff_nonset_minimal (devices : List Device) (g : DeviceGroup)
    (addIds removeIds : List Nat) :
    computeDiff (currentMemberIds devices g) none (some addIds) (some removeIds)
      = (addIds.filter fun i => !(currentMemberIds devices g).contains i,
         (currentMemberIds devices g).filter fun i => removeIds.contains i) ∧
    (∀ i, i ∈ (computeDiff (currentMemberIds devices g) none
        (some addIds) (some removeIds)).2 ↔
      i ∈ currentMemberIds devices g ∧ i ∈ removeIds) ∧
    (∀ i, i ∈ (computeDiff (currentMemberIds devices g) none
        (some addIds) (some removeIds)).1 ↔
      i ∈ addIds ∧ i ∉ currentMemberIds devices g) ∧
    computeDiff (currentMemberIds devices g) none (some addIds) none
      = (addIds.filter fun i => !(currentMemberIds devices g).contains i, []) ∧
    computeDiff (currentMemberIds devices g) none none (some removeIds)
      = ([], (currentMemberIds devices g).filter fun i => removeIds.contains i) ∧
    computeDiff (currentMemberIds devices g) none none none = ([], []) := by
  refine ⟨rfl, ?_, ?_, rfl, rfl, rfl⟩ <;> intro i <;>
    simp [computeDiff, List.mem_filter]

/-- C1 (failing input for the code bug): device 2 belongs to the group's
application and team, is not a current member, and appears in both the
add and the remove list; the call succeeds and the final membership
CONTAINS device 2 — the remove does not dominate, contradicting the
claim and the source's own comment. -/
theorem addRemove_conflict_adds_nonmember :
    updateDeviceGroupMembership decodeHashidFixed [sampleDevice 2 none] (some sampleGroup)
        (some [DeviceRef.num 2]) (some [DeviceRef.num 2]) none
      = ([sampleDevice 2 (some 10)], none) ∧
    2 ∈ currentMemberIds
      (updateDeviceGroupMembership decodeHashidFixed [sampleDevice 2 none]
        (some sampleGroup) (some [DeviceRef.num 2]) (some [DeviceRef.num 2]) none).1
      sampleGroup := by
  exact ⟨rfl, by decide⟩

/-- C5: when the transactional apply phase of
`updateDeviceGroupMembership` errors, the device table is returned
unchanged (full rollback, no partially applied state), a validation
error is re-raised unchanged, and any other error is re-raised as a
generic error carrying the original message. -/
theorem updateMembership_rollback_on_error (decoderFn : String → Nat)
    (devices : List Device) (g : DeviceGroup)
    (addDevices removeDevices setDevices : Option (List DeviceRef)) (e : CtrlError)
    (herr : applyMembershipChange decoderFn devices g
        (computeDiff (currentMemberIds devices g)
          (setDevices.map (deviceListToIds decoderFn))
          (addDevices.map (deviceListToIds decoderFn))
          (removeDevices.map (deviceListToIds decoderFn))).1
        (computeDiff (currentMemberIds devices g)
          (setDevices.map (deviceListToIds decoderFn))
          (addDevices.map (deviceListToIds decoderFn))
          (removeDevices.map (deviceListToIds decoderFn))).2 = .error e) :
    updateDeviceGroupMembership decoderFn devices (some g)
        addDevices removeDevices setDevices
      = (devices, some (wrapMembershipError e)) ∧
    (∀ code msg status, e = .validation code msg status → wrapMembershipError e = e) ∧
    (∀ msg, e = .generic msg → wrapMembershipError e
      = .generic ("Failed to update device group membership: " ++ msg)) := by
  refine ⟨?_, ?_, ?_⟩
  · by_cases hall : setDevices = none ∧ addDevices = none ∧ removeDevices = none
    · obtain ⟨rfl, rfl, rfl⟩ := hall
      exact Except.noConfusion herr
    · rw [updateDeviceGroupMembership_eq_of_not_all_none _ _ _ _ _ _ (by tauto)]
      rw [herr]
  · rintro code msg status rfl
    rfl
  · rintro msg rfl
    rfl

/-- C5 witness: a request adding a non-existent device makes the apply
phase raise the validation error, and the call reports it with the table
unchanged. -/
theorem updateMembership_rollback_on_error_witness :
    updateDeviceGroupMembership decodeHashidFixed [] (some sampleGroup)
        (some [DeviceRef.num 5]) none none
      = ([], some (.validation "invalid_input"
          "One or more devices cannot be added to the group" 400)) :=
  (updateMembership_rollback_on_error decodeHashidFixed [] sampleGroup
      (some [DeviceRef.num 5]) none none
      (.validation "invalid_input" "One or more devices cannot be added to the group" 400)
      rfl).1

/-- C2: when `setDevices` is provided it is authoritative — the computed
diff is `toAdd = set − current`, `toRemove = current − set`, independent
of the add/remove arguments — and on success the final membership of the
group is exactly the normalized set list. -/
theorem setDevices_authoritative (decoderFn : String → Nat)
    (devices devices' : List Device) (g : DeviceGroup)
    (add remove : Option (List DeviceRef)) (S : List DeviceRef)
    (hN : (devices.map Device.id).Nodup)
    (hok : updateDeviceGroupMembership decoderFn devices (some g) add remove (some S)
      = (devices', none)) :
    computeDiff (currentMemberIds devices g) (some (deviceListToIds decoderFn S))
        (add.map (deviceListToIds decoderFn)) (remove.map (deviceListToIds decoderFn))
      = ((deviceListToIds decoderFn S).filter
          (fun i => !(currentMemberIds devices g).contains i),
         (currentMemberIds devices g).filter
          (fun i => !(deviceListToIds decoderFn S).contains i)) ∧
    ∀ i, (∃ d ∈ devices', d.id = i ∧ d.deviceGroupId = some g.id) ↔
      i ∈ deviceListToIds decoderFn S := by
  refine ⟨rfl, ?_⟩
  exact applyMembershipChange_set_membership decoderFn devices g _ devices' hN
    (updateDeviceGroupMembership_set_apply _ _ _ _ _ _ _ hok)

/-- C2 witness: group 10 has members 1, 2, 3; setting [2, 3, 4] (device 4
eligible and unassigned) succeeds, device 4 is a member afterwards and
device 1 no longer is. -/
theorem setDevices_authoritative_witness :
    (4 ∈ deviceListToIds decodeHashidFixed
        [DeviceRef.num 2, DeviceRef.num 3, DeviceRef.num 4]) ∧
    (∃ d ∈ (updateDeviceGroupMembership decodeHashidFixed
        [sampleDevice 1 (some 10), sampleDevice 2 (some 10), sampleDevice 3 (some 10),
         sampleDevice 4 none] (some sampleGroup) none none
        (some [DeviceRef.num 2, DeviceRef.num 3, DeviceRef.num 4])).1,
      d.id = 4 ∧ d.deviceGroupId = some sampleGroup.id) ∧
    ¬(∃ d ∈ (updateDeviceGroupMembership decodeHashidFixed
        [sampleDevice 1 (some 10), sampleDevice 2 (some 10), sampleDevice 3 (some 10),
         sampleDevice 4 none] (some sampleGroup) none none
        (some [DeviceRef.num 2, DeviceRef.num 3, DeviceRef.num 4])).1,
      d.id = 1 ∧ d.deviceGroupId = some sampleGroup.id) := by
  have h := setDevices_authoritative decodeHashidFixed
    [sampleDevice 1 (some 10), sampleDevice 2 (some 10), sampleDevice 3 (some 10),
     sampleDevice 4 none] _ sampleGroup none none
    [DeviceRef.num 2, DeviceRef.num 3, DeviceRef.num 4] (by decide) rfl
  refine ⟨by decide, (h.2 4).2 (by decide), fun hmem => ?_⟩
  have := (h.2 1).1 hmem
  exact absurd this (by decide)

/-- C3: set mode is idempotent — after a successful run with
`setDevices = S`, a second run with the same `S` (no interleaving
writers) computes an empty diff in both directions, performs no
device-row writes (the table is returned unchanged) and succeeds. -/
theorem setDevices_idempotent (decoderFn : String → Nat)
    (devices devices1 : List Device) (g : DeviceGroup)
    (add remove add2 remove2 : Option (List DeviceRef)) (S : List DeviceRef)
    (hN : (devices.map Device.id).Nodup)
    (hrun1 : updateDeviceGroupMembership decoderFn devices (some g) add remove (some S)
      = (devices1, none)) :
    computeDiff (currentMemberIds devices1 g) (some (deviceListToIds decoderFn S))
        (add2.map (deviceListToIds decoderFn)) (remove2.map (deviceListToIds decoderFn))
      = ([], []) ∧
    updateDeviceGroupMembership decoderFn devices1 (some g) add2 remove2 (some S)
      = (devices1, none) := by
  have happ := updateDeviceGroupMembership_set_apply _ _ _ _ _ _ _ hrun1
  have hmem := applyMembershipChange_set_membership _ _ _ _ _ hN happ
  have e1 : (deviceListToIds decoderFn S).filter
      (fun i => !(currentMemberIds devices1 g).contains i) = [] := by
    rw [List.filter_eq_nil_iff]
    intro i hi
    have : i ∈ currentMemberIds devices1 g :=
      (mem_currentMemberIds devices1 g i).2 ((hmem i).2 hi)
    simp [this]
  have e2 : (currentMemberIds devices1 g).filter
      (fun i => !(deviceListToIds decoderFn S).contains i) = [] := by
    rw [List.filter_eq_nil_iff]
    intro i hi
    have : i ∈ deviceListToIds decoderFn S :=
      (hmem i).1 ((mem_currentMemberIds devices1 g i).1 hi)
    simp [this]
  have hdiff : computeDiff (currentMemberIds devices1 g)
      (some (deviceListToIds decoderFn S))
      (add2.map (deviceListToIds decoderFn)) (remove2.map (deviceListToIds decoderFn))
      = ([], []) := by
    show ((deviceListToIds decoderFn S).filter
        (fun i => !(currentMemberIds devices1 g).contains i),
      (currentMemberIds devices1 g).filter
        (fun i => !(deviceListToIds decoderFn S).contains i)) = ([], [])
    rw [e1, e2]
  refine ⟨hdiff, ?_⟩
  rw [updateDeviceGroupMembership_eq_of_not_all_none _ _ _ _ _ _ (Or.inl (by simp))]
  have hdiff' : computeDiff (currentMemberIds devices1 g)
      ((some S).map (deviceListToIds decoderFn))
      (add2.map (deviceListToIds decoderFn)) (remove2.map (deviceListToIds decoderFn))
      = ([], []) := hdiff
  rw [hdiff']
  rfl

/-- C3 witness: the second run on the already-reconciled table is a
no-op. -/
theorem setDevices_idempotent_witness :
    updateDeviceGroupMembership decodeHashidFixed
        (updateDeviceGroupMembership decodeHashidFixed
          [sampleDevice 1 (some 10), sampleDevice 4 none] (some sampleGroup) none none
          (some [DeviceRef.num 1, DeviceRef.num 4])).1
        (some sampleGroup) none none (some [DeviceRef.num 1, DeviceRef.num 4])
      = ((updateDeviceGroupMembership decodeHashidFixed
          [sampleDevice 1 (some 10), sampleDevice 4 none] (some sampleGroup) none none
          (some [DeviceRef.num 1, DeviceRef.num 4])).1, none) :=
  (setDevices_idempotent decodeHashidFixed
    [sampleDevice 1 (some 10), sampleDevice 4 none] _ sampleGroup none none none none
    [DeviceRef.num 1, DeviceRef.num 4] (by decide) rfl).2

/-- C7: every successful membership-mutating operation
(`assignDevicesToGroup`, `removeDevicesFromGroup`,
`updateDeviceGroupMembership`) preserves the membership invariant, and a
device's group pointer can name at most one group. -/
theorem membership_ops_preserve_invariant (decoderFn : String → Nat)
    (groups : List DeviceGroup) (devices devices' : List Device) (g : DeviceGroup)
    (dl : List DeviceRef)
    (addDevices removeDevices setDevices : Option (List DeviceRef))
    (hInv : membershipInvariant groups devices) (hg : g ∈ groups)
    (hN : (devices.map Device.id).Nodup) :
    (assignDevicesToGroup decoderFn devices g dl = .ok devices' →
      membershipInvariant groups devices') ∧
    (removeDevicesFromGroup decoderFn devices g dl = .ok devices' →
      membershipInvariant groups devices') ∧
    (updateDeviceGroupMembership decoderFn devices (some g)
        addDevices removeDevices setDevices = (devices', none) →
      membershipInvariant groups devices') ∧
    (∀ d ∈ devices', ∀ gid1 gid2, d.deviceGroupId = some gid1 →
      d.deviceGroupId = some gid2 → gid1 = gid2) := by
  refine ⟨fun h => membershipInvariant_after_assign _ _ _ _ _ _ hInv hg hN h,
    fun h => membershipInvariant_after_remove _ _ _ _ _ _ hInv h,
    fun h => ?_, ?_⟩
  · rcases updateDeviceGroupMembership_ok_elim _ _ _ _ _ _ _ h with rfl | happ
    · exact hInv
    · exact membershipInvariant_after_apply _ _ _ _ _ _ _ hInv hg hN happ
  · intro d _ gid1 gid2 h1 h2
    rw [h1] at h2
    exact Option.some_injective _ h2

/-- C7 witness: assigning the unassigned eligible device 5 to the sample
group keeps the invariant on the resulting table. -/
theorem membership_ops_preserve_invariant_witness :
    membershipInvariant [sampleGroup] [sampleDevice 5 (some 10)] :=
  (membership_ops_preserve_invariant decodeHashidFixed [sampleGroup]
      [sampleDevice 5 none] [sampleDevice 5 (some 10)] sampleGroup
      [DeviceRef.num 5] none none none
      (by unfold membershipInvariant; decide) (by decide) (by decide)).1 rfl

/-- C6 counterexample: the batch [5, 5] lists only device 5, which is
unassigned and matches the group's application and team — so every
listed device is eligible — yet validation throws, because the count
query sees one row against a batch size of two.  This refutes the
claimed equivalence for batches with repeated ids. -/
theorem validateDeviceList_duplicate_batch_rejected :
    (∀ i ∈ deviceListToIds decodeHashidFixed [DeviceRef.num 5, DeviceRef.num 5],
      ∃ d ∈ [sampleDevice 5 none], d.id = i ∧
        (d.deviceGroupId = none ∨ d.deviceGroupId = some sampleGroup.id) ∧
        d.applicationId = sampleGroup.applicationId ∧ d.teamId = some 1) ∧
    sampleGroup.teamId = some 1 ∧
    validateDeviceList decodeHashidFixed [sampleDevice 5 none] (some sampleGroup)
        (some [DeviceRef.num 5, DeviceRef.num 5]) none
      = .error (.validation "invalid_input"
          "One or more devices cannot be added to the group" 400) := by
  exact ⟨by decide, rfl, rfl⟩

/-- C6 (amended): over a table with unique row ids, add-batch validation
succeeds exactly when the count of eligible listed rows equals the batch
length; for a batch whose normalized id list is duplicate-free this holds
exactly when every listed id names an eligible device (unassigned or in
this group, same application and team); on a mismatch it raises the 400
`invalid_input` validation error, and a failed validation aborts
`assignDevicesToGroup` with the same error before any row is written. -/
theorem validateDeviceList_add_batch_spec (decoderFn : String → Nat)
    (devices : List Device) (g : DeviceGroup) (aL : List DeviceRef) (tid : Nat)
    (hgt : g.teamId = some tid) (hz : tid ≠ 0)
    (hN : (devices.map Device.id).Nodup) :
    ((∃ out, validateDeviceList decoderFn devices (some g) (some aL) none = .ok out) ↔
      (devices.filter (addEligible g tid (deviceListToIds decoderFn aL))).length
        = (deviceListToIds decoderFn aL).length) ∧
    ((deviceListToIds decoderFn aL).Nodup →
      ((∃ out, validateDeviceList decoderFn devices (some g) (some aL) none = .ok out) ↔
        ∀ i ∈ deviceListToIds decoderFn aL, ∃ d ∈ devices, d.id = i ∧
          (d.deviceGroupId = none ∨ d.deviceGroupId = some g.id) ∧
          d.applicationId = g.applicationId ∧ d.teamId = some tid)) ∧
    ((devices.filter (addEligible g tid (deviceListToIds decoderFn aL))).length
        ≠ (deviceListToIds decoderFn aL).length →
      validateDeviceList decoderFn devices (some g) (some aL) none
        = .error (.validation "invalid_input"
            "One or more devices cannot be added to the group" 400)) ∧
    (∀ e, validateDeviceList decoderFn devices (some g) (some aL) none = .error e →
      assignDevicesToGroup decoderFn devices g aL = .error e) := by
  have hcount_iff : (∃ out, validateDeviceList decoderFn devices (some g) (some aL) none
        = .ok out) ↔
      (devices.filter (addEligible g tid (deviceListToIds decoderFn aL))).length
        = (deviceListToIds decoderFn aL).length := by
    constructor
    · rintro ⟨out, hok⟩
      obtain ⟨tid', hz', hgt', -, hA, -⟩ := validateDeviceList_ok_elim _ _ _ _ _ _ hok
      have : tid' = tid := by
        rw [hgt] at hgt'
        exact (Option.some_injective _ hgt').symm
      subst this
      exact hA _ rfl
    · intro hc
      refine ⟨_, validateDeviceList_ok_intro _ _ _ _ _ tid hgt hz ?_ (by simp)⟩
      intro ids hids
      simp only [Option.map, Option.some.injEq] at hids
      cases hids
      exact hc
  refine ⟨hcount_iff, ?_, ?_, ?_⟩
  · intro hIds
    rw [hcount_iff]
    constructor
    · intro hc
      obtain ⟨-, -, hreal⟩ := count_ok_spec devices (deviceListToIds decoderFn aL) _
        (fun d hd => (addEligible_spec hd).1) hN hc
      intro i hi
      obtain ⟨d, hd, rfl, helig⟩ := hreal i hi
      obtain ⟨-, hgrp, happ, hteam⟩ := addEligible_spec helig
      exact ⟨d, hd, rfl, hgrp, happ, hteam⟩
    · intro hall
      refine count_ok_of_all devices (deviceListToIds decoderFn aL) _
        (fun d hd => (addEligible_spec hd).1) hN hIds ?_
      intro i hi
      obtain ⟨d, hd, hid, hgrp, happ, hteam⟩ := hall i hi
      exact ⟨d, hd, hid, addEligible_intro (hid ▸ hi) hgrp happ hteam⟩
  · intro hc
    exact validateDeviceList_add_error_intro _ _ _ _ _ tid hgt hz hc
  · intro e herr
    unfold assignDevicesToGroup
    rw [herr]

/-- C6 witness: validation of the duplicate-free batch [5] over the
single eligible device 5 succeeds. -/
theorem validateDeviceList_add_batch_spec_witness :
    ∃ out, validateDeviceList decodeHashidFixed [sampleDevice 5 none] (some sampleGroup)
      (some [DeviceRef.num 5]) none = .ok out :=
  ((validateDeviceList_add_batch_spec decodeHashidFixed [sampleDevice 5 none]
      sampleGroup [DeviceRef.num 5] 1 rfl (by decide) (by decide)).1).2 (by decide)

/-- C8: with comms available, the notifier dispatches an `update` command
to exactly those devices of the group whose `targetSnapshotId` equals the
group's pipeline-stage target snapshot id — all others are skipped — and
each payload carries owner type `application`, the application's hashid,
the resolved target snapshot's hashid, the device's settings hash (or
null), the device's mode, and the license flag. -/
theorem sendUpdateCommand_targets (licenseActive : Bool)
    (applications : List Application) (snapshots : List Snapshot)
    (devices : List Device) (g : DeviceGroup)
    (application : Application) (targetSnapshot : Snapshot) (cmds : List SentCommand)
    (hApp : applications.find? (fun a => some a.id == g.applicationId)
      = some application)
    (hSnap : g.targetSnapshot = some targetSnapshot ∨
      (g.targetSnapshot = none ∧
        snapshots.find? (fun s => some s.id == g.pipelineTargetSnapshotId)
          = some targetSnapshot))
    (hrun : sendUpdateCommand true licenseActive applications snapshots devices g
      = .ok cmds) :
    ∀ c, c ∈ cmds ↔ ∃ d ∈ devices, d.deviceGroupId = some g.id ∧
      d.targetSnapshotId = g.pipelineTargetSnapshotId ∧
      c = { teamHashid := application.teamHashid, deviceHashid := d.hashid,
            command := "update",
            payload := { ownerType := "application",
                         application := application.hashid,
                         snapshot := targetSnapshot.hashid,
                         settings := settingsOrNull d.settingsHash,
                         mode := d.mode, licensed := licenseActive } } := by
  unfold sendUpdateCommand at hrun
  rw [if_pos rfl, hApp] at hrun
  dsimp only at hrun
  have hrun' : ((devices.filter fun d => d.deviceGroupId == some g.id).filterMap
      fun device =>
        if device.targetSnapshotId != g.pipelineTargetSnapshotId then
          none
        else
          some { teamHashid := application.teamHashid, deviceHashid := device.hashid,
                 command := "update",
                 payload := { ownerType := "application",
                              application := application.hashid,
                              snapshot := targetSnapshot.hashid,
                              settings := settingsOrNull device.settingsHash,
                              mode := device.mode, licensed := licenseActive } })
      = cmds := by
    rcases hSnap with hts | ⟨hts, hfind⟩
    · rw [hts] at hrun
      dsimp only at hrun
      injection hrun
    · rw [hts] at hrun
      dsimp only at hrun
      rw [hfind] at hrun
      dsimp only at hrun
      injection hrun
  subst hrun'
  intro c
  constructor
  · intro hc
    rcases List.mem_filterMap.1 hc with ⟨d, hd, hfd⟩
    have hdg := List.mem_filter.1 hd
    by_cases ht : (d.targetSnapshotId != g.pipelineTargetSnapshotId) = true
    · rw [if_pos ht] at hfd
      exact Option.noConfusion hfd
    · rw [if_neg ht] at hfd
      injection hfd with hfd
      exact ⟨d, hdg.1, by simpa using hdg.2, by simpa using ht, hfd.symm⟩
  · rintro ⟨d, hd, hg1, ht1, rfl⟩
    refine List.mem_filterMap.2 ⟨d, List.mem_filter.2 ⟨hd, by simp [hg1]⟩, ?_⟩
    rw [if_neg (by simp [ht1])]

/-- C8 witness: of the two group members (targets 7 and 8) only the
device targeting the group's pipeline snapshot 7 receives the command. -/
theorem sendUpdateCommand_targets_witness :
    notifierExpectedCommand ∈ [notifierExpectedCommand] ∧
    ¬∃ d ∈ [notifierDeviceMatching, notifierDeviceOther],
      d.deviceGroupId = some notifierGroup.id ∧
      d.targetSnapshotId = notifierGroup.pipelineTargetSnapshotId ∧
      ({ teamHashid := notifierApp.teamHashid, deviceHashid := "dev2",
         command := "update",
         payload := { ownerType := "application",
                      application := notifierApp.hashid,
                      snapshot := notifierSnap.hashid,
                      settings := settingsOrNull d.settingsHash,
                      mode := d.mode, licensed := true } } : SentCommand)
        = { teamHashid := notifierApp.teamHashid, deviceHashid := d.hashid,
            command := "update",
            payload := { ownerType := "application",
                         application := notifierApp.hashid,
                         snapshot := notifierSnap.hashid,
                         settings := settingsOrNull d.settingsHash,
                         mode := d.mode, licensed := true } } := by
  have h := sendUpdateCommand_targets true [notifierApp] [notifierSnap]
    [notifierDeviceMatching, notifierDeviceOther] notifierGroup
    notifierApp notifierSnap [notifierExpectedCommand] rfl (Or.inr ⟨rfl, rfl⟩) rfl
  refine ⟨(h notifierExpectedCommand).2
    ⟨notifierDeviceMatching, by decide, rfl, rfl, rfl⟩, ?_⟩
  rintro ⟨d, hd, -, ht, heq⟩
  have hd2 : d = notifierDeviceMatching ∨ d = notifierDeviceOther := by
    simpa using hd
  rcases hd2 with rfl | rfl
  · exact absurd heq (by decide)
  · exact absurd ht (by decide)
